import Mathlib

/-!
Verification of the reminder dispatch core of the signsetu repository.

The embedding models:
* `StudyBlock` and the BlockStore service functions of `src/services/blocks.ts`
  (`createStudyBlock`, `deleteStudyBlock`, `getUpcomingBlocks`, `markReminderSent`).
  The store is a list of records (MongoDB collection in insertion order);
  `updateOne` / `deleteOne` act on the first matching record.  Every service
  function wraps its database work in try/catch, so each model takes a
  `dbFail : Bool` flag standing for "the awaited database call threw"; the
  catch branch is the `dbFail = true` branch.
* the per-sweep processing loop of `src/lib/scheduler.ts` (`checkReminders`)
  and of `src/app/api/reminders/route.ts` (`POST`), over an environment
  giving the outcome of each external call (Supabase user lookup, email
  transport, mark update).
* the `ReminderScheduler` start/stop state machine, with timer handles made
  explicit so that "exactly one timer" is a provable statement.
* the duration computation of `generateReminderEmail` in
  `src/services/email.ts`, with JavaScript `Math.round` made explicit
  over the rationals.

Times are modelled as integer milliseconds since the epoch (`Date.getTime()`).
-/

/-- The `StudyBlock` interface of `src/lib/mongodb.ts` (the optional Mongo
`_id` is omitted; `blockId` is the application-level key used by every
query in `src/services/blocks.ts`). -/
structure StudyBlock where
  userId : String
  blockId : String
  startTime : Int
  endTime : Int
  reminderSent : Bool
  createdAt : Int
deriving DecidableEq, Repr

/-- The `study_blocks` collection, in insertion order. -/
abbrev Store := List StudyBlock

/-- The selection predicate of `getUpcomingBlocks` (src/services/blocks.ts:146-149):
`startTime: { $gte: now, $lte: futureTime }, reminderSent: false` with
`futureTime = now.getTime() + minutes * 60 * 1000`. -/
def upcomingQuery (nowMs minutes : Int) (b : StudyBlock) : Bool :=
  decide (nowMs ≤ b.startTime) && decide (b.startTime ≤ nowMs + minutes * 60 * 1000) &&
    (b.reminderSent == false)

/-- Model of `getUpcomingBlocks` (src/services/blocks.ts:129-197): filters the store by
`upcomingQuery`; the surrounding try/catch returns `[]` when the database
call throws (`dbFail = true`). -/
def getUpcomingBlocks (dbFail : Bool) (nowMs minutes : Int) (store : Store) : List StudyBlock :=
  if dbFail then [] else store.filter (upcomingQuery nowMs minutes)

/-- Model of the `updateOne` call with filter `blockId` setting `reminderSent` to true
(src/services/blocks.ts:207-210): updates the first record whose `blockId`
matches.  Returns `modifiedCount == 1` (the value `markReminderSent` turns
into its boolean result) together with the updated store: a record that is
already `reminderSent = true` is matched but not modified. -/
def updateOneMark : Store → String → Bool × Store
  | [], _ => (false, [])
  | b :: rest, bid =>
    if b.blockId == bid then
      if b.reminderSent then (false, b :: rest)
      else (true, { b with reminderSent := true } :: rest)
    else
      let r := updateOneMark rest bid
      (r.1, b :: r.2)

/-- Model of `markReminderSent` (src/services/blocks.ts:199-234): returns `true` iff
`modifiedCount === 1`; both "not found" (`matchedCount === 0`) and "matched
but not modified" return `false`, and the catch branch returns `false`
leaving the store untouched. -/
def markReminderSent (dbFail : Bool) (store : Store) (bid : String) : Bool × Store :=
  if dbFail then (false, store) else updateOneMark store bid

/-- Model of the `deleteOne` call with filter `blockId, userId` (src/services/blocks.ts:104-107):
removes the first record matching both keys; returns `deletedCount == 1`. -/
def deleteOneBlock : Store → String → String → Bool × Store
  | [], _, _ => (false, [])
  | b :: rest, bid, uid =>
    if b.blockId == bid && b.userId == uid then (true, rest)
    else
      let r := deleteOneBlock rest bid uid
      (r.1, b :: r.2)

/-- Model of `deleteStudyBlock` (src/services/blocks.ts:95-127): `true` iff
`deletedCount === 1`; the catch branch returns `false` with the store
untouched. -/
def deleteStudyBlock (dbFail : Bool) (store : Store) (bid uid : String) : Bool × Store :=
  if dbFail then (false, store) else deleteOneBlock store bid uid

/-- The caller-supplied part of a new block
(the TypeScript `Omit` of `StudyBlock` without `_id`, `blockId`, `reminderSent`, `createdAt`). -/
structure BlockData where
  userId : String
  startTime : Int
  endTime : Int
deriving DecidableEq, Repr

/-- Model of `createStudyBlock` (src/services/blocks.ts:6-50): inserts a new record
with a freshly generated `blockId` (`genId`, a new ObjectId string in the
source), `reminderSent: false` and `createdAt: now`; the catch branch (and
an unacknowledged insert) returns `null` leaving the store untouched. -/
def createStudyBlock (dbFail : Bool) (store : Store) (d : BlockData) (genId : String)
    (nowMs : Int) : Option StudyBlock × Store :=
  if dbFail then (none, store)
  else
    let nb : StudyBlock :=
      { userId := d.userId, blockId := genId, startTime := d.startTime,
        endTime := d.endTime, reminderSent := false, createdAt := nowMs }
    (some nb, store ++ [nb])

/-- One store-mutating service call, with its possible database failure. -/
inductive StoreOp where
  | create (dbFail : Bool) (d : BlockData) (genId : String) (nowMs : Int)
  | delete (dbFail : Bool) (bid uid : String)
  | mark (dbFail : Bool) (bid : String)

/-- The effect of one service call on the collection. -/
def StoreOp.apply : StoreOp → Store → Store
  | .create df d g n, s => (createStudyBlock df s d g n).2
  | .delete df b u, s => (deleteStudyBlock df s b u).2
  | .mark df b, s => (markReminderSent df s b).2

/-- The effect of a sequence of service calls, first call first. -/
def applyOps (ops : List StoreOp) (s : Store) : Store :=
  ops.foldl (fun st op => op.apply st) s

/-- Holds when `op` generates `id` as the fresh `blockId` of a created record.  In the
source a created `blockId` is a new ObjectId string, so for an already
existing id this never holds. -/
def StoreOp.createsId (op : StoreOp) (id : String) : Prop :=
  match op with
  | .create _ _ g _ => g = id
  | _ => False

instance (op : StoreOp) (id : String) : Decidable (op.createsId id) := by
  cases op with
  | create df d g n => exact inferInstanceAs (Decidable (g = id))
  | delete df b u => exact inferInstanceAs (Decidable False)
  | mark df b => exact inferInstanceAs (Decidable False)

/-- The record `createStudyBlock` inserts for the given data, generated id
and creation time. -/
def createdBlock (d : BlockData) (genId : String) (nowMs : Int) : StudyBlock :=
  { userId := d.userId, blockId := genId, startTime := d.startTime,
    endTime := d.endTime, reminderSent := false, createdAt := nowMs }

/-- Every block of the store with this `blockId` has `reminderSent = true`. -/
def MarkedInv (id : String) (s : Store) : Prop :=
  ∀ b ∈ s, b.blockId = id → b.reminderSent = true

/-- Outcome of `supabaseAdmin.auth.admin.getUserById(userId)`:
the call can throw (`thrown`, caught by the per-block try/catch), return a
non-null `error` (`sbError`), return data without a user email (`noEmail`),
or yield the email address of the user (`found`). -/
inductive ResolveResult where
  | thrown (msg : String)
  | sbError (msg : String)
  | noEmail
  | found (addr : String)
deriving DecidableEq, Repr

/-- Outcomes of the external calls one sweep makes per block: the Supabase
user lookup, `sendEmail` (which returns a boolean and never throws,
src/services/email.ts:44-62), and `markReminderSent` (boolean result,
never throws). -/
structure SweepEnv where
  resolve : String → ResolveResult
  sendEmail : String → Bool
  mark : String → Bool

/-- The body of the per-block loop of `checkReminders`
(src/lib/scheduler.ts:79-123): `none` means the reminder was sent and
marked (the success path that increments `remindersSent`); `some e` is the
error string pushed onto `errors`.  `userError` and a missing email share
one message in this loop. -/
def processBlock (env : SweepEnv) (b : StudyBlock) : Option String :=
  match env.resolve b.userId with
  | .thrown m => some ("Error processing block " ++ b.blockId ++ ": " ++ m)
  | .sbError _ => some ("User not found or no email for block " ++ b.blockId)
  | .noEmail => some ("User not found or no email for block " ++ b.blockId)
  | .found addr =>
    if env.sendEmail addr then
      if env.mark b.blockId then none
      else some ("Failed to mark reminder as sent for block " ++ b.blockId)
    else
      some ("Failed to send email for block " ++ b.blockId)

/-- The `for (const block of upcomingBlocks)` loop of `checkReminders`:
accumulates `remindersSent` and `errors` in encounter order. -/
def sweepLoop (env : SweepEnv) : List StudyBlock → Nat × List String
  | [] => (0, [])
  | b :: rest =>
    let r := sweepLoop env rest
    match processBlock env b with
    | none => (r.1 + 1, r.2)
    | some e => (r.1, e :: r.2)

/-- The summary of one sweep (`summary` object of src/lib/scheduler.ts:125-130
and the per-run result of the route handler): blocks found, reminders sent,
errors in encounter order. -/
structure SweepResult where
  blocksFound : Nat
  remindersSent : Nat
  errors : List String
deriving DecidableEq, Repr

/-- Model of `checkReminders` (src/lib/scheduler.ts:62-141) as seen by its caller:
selection via `getUpcomingBlocks(10)` followed by the per-block loop.
The result is `Except String SweepResult` so that a hard failure crossing
the sweep boundary would be visible as `.error`; since `getUpcomingBlocks`
catches its own failures (returning `[]`) and every per-block failure is
caught inside the loop, the function always produces a result. -/
def checkReminders (selFail : Bool) (nowSel : Int) (store : Store) (env : SweepEnv) :
    Except String SweepResult :=
  let upcoming := getUpcomingBlocks selFail nowSel 10 store
  let r := sweepLoop env upcoming
  .ok { blocksFound := upcoming.length, remindersSent := r.1, errors := r.2 }

/-- The body of the per-block loop of the route handler `POST /api/reminders`
(src/app/api/reminders/route.ts:62-139): same structure as `processBlock`
but a Supabase `error` and a missing email produce distinct messages. -/
def routeProcessBlock (env : SweepEnv) (b : StudyBlock) : Option String :=
  match env.resolve b.userId with
  | .thrown m => some ("Error processing block " ++ b.blockId ++ ": " ++ m)
  | .sbError m => some ("Supabase error for block " ++ b.blockId ++ ": " ++ m)
  | .noEmail => some ("User not found or no email for block " ++ b.blockId)
  | .found addr =>
    if env.sendEmail addr then
      if env.mark b.blockId then none
      else some ("Failed to mark reminder as sent for block " ++ b.blockId)
    else
      some ("Failed to send email for block " ++ b.blockId)

/-- The loop of the route handler: `(remindersSent, errors, successfulBlocks)`,
each in encounter order. -/
def routeLoop (env : SweepEnv) : List StudyBlock → Nat × List String × List String
  | [] => (0, [], [])
  | b :: rest =>
    let r := routeLoop env rest
    match routeProcessBlock env b with
    | none => (r.1 + 1, r.2.1, b.blockId :: r.2.2)
    | some e => (r.1, e :: r.2.1, r.2.2)

/-- The JSON responses the route handler can return after authorization
succeeds (src/app/api/reminders/route.ts:50-193): the "no upcoming blocks"
200 response, the normal 200 summary response, or the catch-all 500. -/
inductive RouteResponse where
  | noUpcoming (remindersSent blocksProcessed : Nat)
  | processed (remindersSent blocksProcessed : Nat) (successfulBlocks errors : List String)
  | serverError (details : String)
deriving DecidableEq, Repr

/-- Model of `POST /api/reminders` after authorization (src/app/api/reminders/route.ts:41-193):
selection via `getUpcomingBlocks(10)`, the early "no upcoming blocks"
response, then the per-block loop and the summary response.  The 500
branch would require an exception to escape the selection and the loop,
which never happens since both catch internally. -/
def remindersPOST (selFail : Bool) (nowSel : Int) (store : Store) (env : SweepEnv) :
    RouteResponse :=
  let upcoming := getUpcomingBlocks selFail nowSel 10 store
  if upcoming.isEmpty then
    .noUpcoming 0 0
  else
    let r := routeLoop env upcoming
    .processed r.1 upcoming.length r.2.2 r.2.1

/-- The `ReminderScheduler` state (src/lib/scheduler.ts:7-14), with the
timer table of the process made explicit: `intervalId` is the stored handle,
`active` the list of armed repeating timers (`setInterval` arms a fresh
handle, `clearInterval` disarms it), `nextHandle` the allocator. -/
structure SchedulerState where
  isRunning : Bool
  intervalId : Option Nat
  nextHandle : Nat
  active : List Nat
deriving DecidableEq, Repr

/-- The freshly constructed scheduler: `intervalId = null`, `isRunning = false`. -/
def SchedulerState.init : SchedulerState :=
  { isRunning := false, intervalId := none, nextHandle := 0, active := [] }

/-- Model of `start()` (src/lib/scheduler.ts:16-36): no-op when already running;
otherwise sets `isRunning`, runs one sweep immediately, and arms one
repeating timer whose handle is stored in `intervalId`. -/
def SchedulerState.start (s : SchedulerState) : SchedulerState :=
  if s.isRunning then s
  else
    { isRunning := true, intervalId := some s.nextHandle,
      nextHandle := s.nextHandle + 1, active := s.nextHandle :: s.active }

/-- Model of `stop()` (src/lib/scheduler.ts:38-53): no-op when not running; otherwise
clears the stored timer (if any), nulls the handle and clears `isRunning`. -/
def SchedulerState.stop (s : SchedulerState) : SchedulerState :=
  if !s.isRunning then s
  else
    { isRunning := false, intervalId := none, nextHandle := s.nextHandle,
      active :=
        match s.intervalId with
        | some h => s.active.erase h
        | none => s.active }

/-- Model of `getStatus()` (src/lib/scheduler.ts:55-60): pure read. -/
def SchedulerState.getStatus (s : SchedulerState) : Bool × Nat :=
  (s.isRunning, 60000)

/-- One external control action on the scheduler (`getStatus` is pure and
changes nothing). -/
inductive SchedOp where
  | start
  | stop
deriving DecidableEq, Repr

/-- Apply one control action. -/
def SchedOp.apply : SchedOp → SchedulerState → SchedulerState
  | .start, s => s.start
  | .stop, s => s.stop

/-- Run a sequence of control actions from the freshly constructed scheduler. -/
def runSched (ops : List SchedOp) : SchedulerState :=
  ops.foldl (fun s op => op.apply s) SchedulerState.init

/-- The timer invariant of the scheduler: the stored handle is present iff the
scheduler is running, and it is exactly the one armed timer; stopped
states have no armed timer. -/
def SchedInv (s : SchedulerState) : Prop :=
  match s.intervalId with
  | some h => s.isRunning = true ∧ s.active = [h]
  | none => s.isRunning = false ∧ s.active = []

/-- Model of `getUpcomingBlocks` with the `new Date()` call made explicit: `clock i`
is the value of the i-th `new Date()` of the sweep, `k` the index of the
next sample.  The function takes one sample (`now`, src/services/blocks.ts:133)
and derives `futureTime` from that same sample (line 134); it returns the
selection together with the next sample index. -/
def getUpcomingBlocksClock (clock : Nat → Int) (k : Nat) (minutes : Int) (store : Store) :
    List StudyBlock × Nat :=
  let now := clock k
  (store.filter (upcomingQuery now minutes), k + 1)

/-- Model of `checkReminders` with its time samples made explicit: the method first
samples `now` itself (src/lib/scheduler.ts:63, used only in a log line),
then calls `getUpcomingBlocks(10)`, which takes its own sample.  Returns
the sweep result together with the total number of `new Date()` samples
taken. -/
def checkRemindersClock (clock : Nat → Int) (store : Store) (env : SweepEnv) :
    SweepResult × Nat :=
  let _sweepStartNow := clock 0
  let sel := getUpcomingBlocksClock clock 1 10 store
  let r := sweepLoop env sel.1
  ({ blocksFound := sel.1.length, remindersSent := r.1, errors := r.2 }, sel.2)

/-- Modelled from the spec: the selection the spec describes, in which "now"
is sampled exactly once at sweep start (sample 0) and that same value is
the lower bound of the selection window.  Used only to compare the fixed-now
wording of the spec against the sampling behaviour of the code. -/
def specFixedNowSelection (clock : Nat → Int) (store : Store) : List StudyBlock :=
  store.filter (upcomingQuery (clock 0) 10)

/-- JavaScript `Math.round`: nearest integer, ties rounded toward +∞. -/
def jsMathRound (q : ℚ) : ℤ := ⌊q + 1 / 2⌋

/-- The `duration` computed by `generateReminderEmail`
(src/services/email.ts:90): `Math.round((endTime.getTime() -
startTime.getTime()) / (1000 * 60))`, interpolated into the rendered
HTML as "Duration: ${duration} minutes". -/
def reminderEmailDuration (startMs endMs : Int) : Int :=
  jsMathRound (((endMs - startMs : Int) : ℚ) / (1000 * 60))

/-- The three due blocks of the isolation scenario: contact resolution
succeeds for `u1` and `u3` and finds no email for `u2`; delivery and
marking always succeed. -/
def blk1 : StudyBlock :=
  { userId := "u1", blockId := "B1", startTime := 0, endTime := 60000,
    reminderSent := false, createdAt := 0 }

def blk2 : StudyBlock :=
  { userId := "u2", blockId := "B2", startTime := 60000, endTime := 120000,
    reminderSent := false, createdAt := 0 }

def blk3 : StudyBlock :=
  { userId := "u3", blockId := "B3", startTime := 120000, endTime := 180000,
    reminderSent := false, createdAt := 0 }

def env3 : SweepEnv :=
  { resolve := fun uid =>
      if uid == "u2" then ResolveResult.noEmail
      else ResolveResult.found (uid ++ "@mail.test"),
    sendEmail := fun _ => true,
    mark := fun _ => true }

/-- The two-block store and the later service calls of the at-most-once
witness scenario. -/
def store0 : Store :=
  [{ userId := "u", blockId := "x", startTime := 300000, endTime := 600000,
     reminderSent := false, createdAt := 0 },
   { userId := "u", blockId := "y", startTime := 300000, endTime := 600000,
     reminderSent := false, createdAt := 0 }]

def ops0 : List StoreOp :=
  [StoreOp.mark false "x", StoreOp.delete false "z" "u",
   StoreOp.create false { userId := "u", startTime := 7, endTime := 8 } "w" 0]

/-- A block well inside the 10-minute window of `now = 0` (starts 5 minutes
later), and an environment in which every external call succeeds. -/
def blkWin : StudyBlock :=
  { userId := "u1", blockId := "W1", startTime := 300000, endTime := 600000,
    reminderSent := false, createdAt := 0 }

def envOk : SweepEnv :=
  { resolve := fun uid => ResolveResult.found (uid ++ "@mail.test"),
    sendEmail := fun _ => true,
    mark := fun _ => true }

/-- A clock whose sweep-start sample (index 0) is time 0 and whose later
samples are two minutes later, with a block starting one minute after
sweep start: inside the window anchored at the sweep-start sample, before
the window anchored at the selection-time sample. -/
def clockLate : Nat → Int := fun i => if i = 0 then 0 else 120000

def blkEarly : StudyBlock :=
  { userId := "u1", blockId := "E1", startTime := 60000, endTime := 600000,
    reminderSent := false, createdAt := 0 }

theorem updateOneMark_true_iff (bid : String) :
    ∀ store : Store, (updateOneMark store bid).1 = true ↔
      ∃ b, store.find? (fun x => x.blockId == bid) = some b ∧ b.reminderSent = false := by
  intro store
  induction store with
  | nil => simp [updateOneMark]
  | cons a rest ih =>
    by_cases h : a.blockId == bid
    · rw [show List.find? (fun x => x.blockId == bid) (a :: rest) = some a from
        List.find?_cons_of_pos _ h]
      cases hr : a.reminderSent
      · simp [updateOneMark, h, hr]
      · simp [updateOneMark, h, hr]
    · rw [show List.find? (fun x => x.blockId == bid) (a :: rest) =
          List.find? (fun x => x.blockId == bid) rest from
        List.find?_cons_of_neg _ (by simpa using h)]
      simpa [updateOneMark, h] using ih

/-- C6: the function `markReminderSent` returns a boolean and never raises (a thrown
database call is caught and yields `false` with the store untouched); it
returns `false` when no block matches and when the matched block was
already marked, and `true` exactly when the one matched record was
modified (the first record with this `blockId` existed with
`reminderSent = false`). -/
theorem markReminderSent_contract :
    ∀ (dbFail : Bool) (store : Store) (bid : String),
      ((markReminderSent dbFail store bid).1 = true ↔
        (dbFail = false ∧ ∃ b, store.find? (fun x => x.blockId == bid) = some b ∧
          b.reminderSent = false)) ∧
      (dbFail = true → markReminderSent dbFail store bid = (false, store)) ∧
      (store.find? (fun x => x.blockId == bid) = none →
        (markReminderSent dbFail store bid).1 = false) := by
  intro dbFail store bid
  refine ⟨?_, ?_, ?_⟩
  · cases dbFail
    · simpa [markReminderSent] using updateOneMark_true_iff bid store
    · simp [markReminderSent]
  · intro h; subst h; simp [markReminderSent]
  · intro hnone
    cases dbFail
    · cases hb : (updateOneMark store bid).1
      · simpa [markReminderSent] using hb
      · exfalso
        obtain ⟨b, hfind, -⟩ := (updateOneMark_true_iff bid store).mp hb
        rw [hnone] at hfind
        exact Option.noConfusion hfind
    · simp [markReminderSent]

theorem markReminderSent_contract_witness :
    markReminderSent true [] "x" = (false, ([] : Store)) ∧
    (markReminderSent false [] "x").1 = false :=
  ⟨(markReminderSent_contract true [] "x").2.1 rfl,
   (markReminderSent_contract false [] "x").2.2 rfl⟩

/-- C2: the selection returns exactly the blocks with `reminderSent = false`
and `startTime` in the closed interval `[T, T + L minutes]`; with `L = 10`
a block starting at `T + 9min` is selected while blocks starting at
`T + 11min` or `T - 1min` are not (here `T = 0`, times in ms). -/
theorem windowCorrectness :
    (∀ (T L : Int) (store : Store) (b : StudyBlock),
      b ∈ getUpcomingBlocks false T L store ↔
        (b ∈ store ∧ b.reminderSent = false ∧ T ≤ b.startTime ∧
          b.startTime ≤ T + L * 60 * 1000)) ∧
    getUpcomingBlocks false 0 10
      [{ userId := "u", blockId := "b9", startTime := 540000, endTime := 1200000,
         reminderSent := false, createdAt := 0 },
       { userId := "u", blockId := "b11", startTime := 660000, endTime := 1800000,
         reminderSent := false, createdAt := 0 },
       { userId := "u", blockId := "bm1", startTime := -60000, endTime := 60000,
         reminderSent := false, createdAt := 0 }] =
      [{ userId := "u", blockId := "b9", startTime := 540000, endTime := 1200000,
         reminderSent := false, createdAt := 0 }] := by
  constructor
  · intro T L store b
    simp only [getUpcomingBlocks, Bool.false_eq_true, if_false, List.mem_filter,
      upcomingQuery, Bool.and_eq_true, decide_eq_true_eq, beq_iff_eq]
    tauto
  · decide

theorem deleteOneBlock_spec (bid uid : String) :
    ∀ store : Store,
      ((deleteOneBlock store bid uid).2.filter
          (fun b => !(b.blockId == bid && b.userId == uid)) =
        store.filter (fun b => !(b.blockId == bid && b.userId == uid))) ∧
      ((deleteOneBlock store bid uid).2 = store ∨
        ∃ pre b post, b.blockId = bid ∧ b.userId = uid ∧
          (∀ c ∈ pre, ¬(c.blockId = bid ∧ c.userId = uid)) ∧
          store = pre ++ b :: post ∧ (deleteOneBlock store bid uid).2 = pre ++ post) ∧
      ((deleteOneBlock store bid uid).1 = true ↔
        ∃ b ∈ store, b.blockId = bid ∧ b.userId = uid) := by
  intro store
  induction store with
  | nil => simp [deleteOneBlock]
  | cons a rest ih =>
    by_cases h : a.blockId == bid && a.userId == uid
    · have ha : a.blockId = bid ∧ a.userId = uid := by
        simpa [Bool.and_eq_true, beq_iff_eq] using h
      refine ⟨?_, ?_, ?_⟩
      · simp [deleteOneBlock, h, List.filter_cons, ha.1, ha.2]
      · right
        exact ⟨[], a, rest, ha.1, ha.2, by simp, by simp, by simp [deleteOneBlock, h]⟩
      · have hfst : (deleteOneBlock (a :: rest) bid uid).1 = true := by
          simp [deleteOneBlock, h]
        rw [hfst]
        constructor
        · intro _
          exact ⟨a, List.mem_cons_self a rest, ha⟩
        · intro _
          rfl
    · have ha : ¬(a.blockId = bid ∧ a.userId = uid) := by
        simpa [Bool.and_eq_true, beq_iff_eq] using h
      obtain ⟨ih1, ih2, ih3⟩ := ih
      refine ⟨?_, ?_, ?_⟩
      · have hstep : deleteOneBlock (a :: rest) bid uid =
            ((deleteOneBlock rest bid uid).1, a :: (deleteOneBlock rest bid uid).2) := by
          simp [deleteOneBlock, h]
        rw [hstep]
        rw [show List.filter (fun b => !(b.blockId == bid && b.userId == uid))
              (a :: (deleteOneBlock rest bid uid).2) =
            a :: List.filter (fun b => !(b.blockId == bid && b.userId == uid))
              (deleteOneBlock rest bid uid).2 from
          List.filter_cons_of_pos (by simp [h])]
        rw [show List.filter (fun b => !(b.blockId == bid && b.userId == uid)) (a :: rest) =
            a :: List.filter (fun b => !(b.blockId == bid && b.userId == uid)) rest from
          List.filter_cons_of_pos (by simp [h])]
        rw [ih1]
      · rcases ih2 with heq | ⟨pre, b, post, hb1, hb2, hpre, hsplit, hres⟩
        · left
          simp [deleteOneBlock, h, heq]
        · right
          refine ⟨a :: pre, b, post, hb1, hb2, ?_, by simp [hsplit], ?_⟩
          · intro c hc
            rcases List.mem_cons.mp hc with rfl | hc
            · exact ha
            · exact hpre c hc
          · simp [deleteOneBlock, h, hres]
      · have hfst : (deleteOneBlock (a :: rest) bid uid).1 =
            (deleteOneBlock rest bid uid).1 := by
          simp [deleteOneBlock, h]
        rw [hfst, ih3]
        constructor
        · rintro ⟨b, hb, hprop⟩
          exact ⟨b, List.mem_cons_of_mem a hb, hprop⟩
        · rintro ⟨b, hb, hprop⟩
          rcases List.mem_cons.mp hb with rfl | hb
          · exact absurd hprop ha
          · exact ⟨b, hb, hprop⟩

/-- C10: the call `deleteStudyBlock(blockId, userId)` removes at most the single
(first) block matching both keys; every block with a different `blockId` or
a different owner is left in place unchanged (in order); it returns `true`
exactly when one record was deleted, and `false` without raising when no
record matched or the database call threw. -/
theorem deleteStudyBlock_frame :
    ∀ (dbFail : Bool) (store : Store) (bid uid : String),
      (((deleteStudyBlock dbFail store bid uid).2).filter
          (fun b => !(b.blockId == bid && b.userId == uid)) =
        store.filter (fun b => !(b.blockId == bid && b.userId == uid))) ∧
      ((deleteStudyBlock dbFail store bid uid).2 = store ∨
        ∃ pre b post, b.blockId = bid ∧ b.userId = uid ∧
          (∀ c ∈ pre, ¬(c.blockId = bid ∧ c.userId = uid)) ∧
          store = pre ++ b :: post ∧
          (deleteStudyBlock dbFail store bid uid).2 = pre ++ post) ∧
      ((deleteStudyBlock dbFail store bid uid).1 = true ↔
        (dbFail = false ∧ ∃ b ∈ store, b.blockId = bid ∧ b.userId = uid)) := by
  intro dbFail store bid uid
  cases dbFail
  · simpa [deleteStudyBlock] using deleteOneBlock_spec bid uid store
  · simp [deleteStudyBlock]

theorem deleteStudyBlock_frame_witness :
    ((deleteStudyBlock false
        [{ userId := "u", blockId := "d", startTime := 0, endTime := 1,
           reminderSent := false, createdAt := 0 },
         { userId := "v", blockId := "d", startTime := 2, endTime := 3,
           reminderSent := false, createdAt := 0 }] "d" "u").2).filter
        (fun b => !(b.blockId == "d" && b.userId == "u")) =
      ([{ userId := "u", blockId := "d", startTime := 0, endTime := 1,
          reminderSent := false, createdAt := 0 },
        { userId := "v", blockId := "d", startTime := 2, endTime := 3,
          reminderSent := false, createdAt := 0 }] : Store).filter
        (fun b => !(b.blockId == "d" && b.userId == "u")) :=
  (deleteStudyBlock_frame false _ "d" "u").1

theorem schedInv_init : SchedInv SchedulerState.init := by
  simp [SchedInv, SchedulerState.init]

theorem schedInv_facts : ∀ s : SchedulerState, SchedInv s →
    s.start.start = s.start ∧ s.stop.stop = s.stop ∧
    s.start.isRunning = true ∧ s.start.active.length = 1 ∧
    s.start.intervalId.isSome = true ∧
    s.stop.isRunning = false ∧ s.stop.intervalId = none ∧ s.stop.active = [] ∧
    s.intervalId.isSome = s.isRunning ∧
    (s.isRunning = false → s.stop = s) ∧ (s.isRunning = true → s.start = s) := by
  rintro ⟨run, iid, nh, act⟩ h
  cases iid with
  | none =>
    obtain ⟨h1, h2⟩ := h
    subst h1
    subst h2
    simp [SchedulerState.start, SchedulerState.stop]
  | some hdl =>
    obtain ⟨h1, h2⟩ := h
    subst h1
    subst h2
    simp [SchedulerState.start, SchedulerState.stop]

theorem schedInv_start (s : SchedulerState) (h : SchedInv s) : SchedInv s.start := by
  obtain ⟨run, iid, nh, act⟩ := s
  cases iid with
  | none =>
    obtain ⟨h1, h2⟩ := h
    subst h1
    subst h2
    simp [SchedulerState.start, SchedInv]
  | some hdl =>
    obtain ⟨h1, h2⟩ := h
    subst h1
    subst h2
    simp [SchedulerState.start, SchedInv]

theorem schedInv_stop (s : SchedulerState) (h : SchedInv s) : SchedInv s.stop := by
  obtain ⟨run, iid, nh, act⟩ := s
  cases iid with
  | none =>
    obtain ⟨h1, h2⟩ := h
    subst h1
    subst h2
    simp [SchedulerState.stop, SchedInv]
  | some hdl =>
    obtain ⟨h1, h2⟩ := h
    subst h1
    subst h2
    simp [SchedulerState.stop, SchedInv]

theorem schedInv_run : ∀ (ops : List SchedOp) (s : SchedulerState), SchedInv s →
    SchedInv (ops.foldl (fun st op => op.apply st) s) := by
  intro ops
  induction ops with
  | nil => intro s h; exact h
  | cons op rest ih =>
    intro s h
    apply ih
    cases op
    · exact schedInv_start s h
    · exact schedInv_stop s h

/-- C7: from every reachable scheduler state: the timer invariant holds (a
handle is stored iff the scheduler is running, and it is the single armed
timer); `start` on a running state and `stop` on a stopped state are
no-ops; after `start` the scheduler is running with exactly one armed
timer; after `stop` it is stopped with no handle and no armed timer. -/
theorem schedulerLifecycle : ∀ ops : List SchedOp,
    SchedInv (runSched ops) ∧
    (runSched ops).start.start = (runSched ops).start ∧
    (runSched ops).stop.stop = (runSched ops).stop ∧
    (runSched ops).start.isRunning = true ∧
    (runSched ops).start.active.length = 1 ∧
    (runSched ops).start.intervalId.isSome = true ∧
    (runSched ops).stop.isRunning = false ∧
    (runSched ops).stop.intervalId = none ∧
    (runSched ops).stop.active = [] ∧
    (runSched ops).intervalId.isSome = (runSched ops).isRunning ∧
    ((runSched ops).isRunning = false → (runSched ops).stop = runSched ops) ∧
    ((runSched ops).isRunning = true → (runSched ops).start = runSched ops) := by
  intro ops
  have hinv : SchedInv (runSched ops) := schedInv_run ops SchedulerState.init schedInv_init
  exact ⟨hinv, schedInv_facts _ hinv⟩

theorem schedulerLifecycle_witness :
    (runSched []).stop = runSched [] ∧
    (runSched [SchedOp.start]).start = runSched [SchedOp.start] :=
  ⟨(schedulerLifecycle []).2.2.2.2.2.2.2.2.2.2.1 (by decide),
   (schedulerLifecycle [SchedOp.start]).2.2.2.2.2.2.2.2.2.2.2 (by decide)⟩

theorem sweepLoop_closed (env : SweepEnv) :
    ∀ bs : List StudyBlock,
      sweepLoop env bs = (bs.countP (fun b => (processBlock env b).isNone),
        bs.filterMap (processBlock env)) := by
  intro bs
  induction bs with
  | nil => simp [sweepLoop]
  | cons b rest ih =>
    cases hp : processBlock env b with
    | none => simp [sweepLoop, hp, ih, List.countP_cons, List.filterMap_cons]
    | some e => simp [sweepLoop, hp, ih, List.countP_cons, List.filterMap_cons]

theorem routeLoop_closed (env : SweepEnv) :
    ∀ bs : List StudyBlock,
      routeLoop env bs = (bs.countP (fun b => (routeProcessBlock env b).isNone),
        bs.filterMap (routeProcessBlock env),
        (bs.filter (fun b => (routeProcessBlock env b).isNone)).map
          (fun b => b.blockId)) := by
  intro bs
  induction bs with
  | nil => simp [routeLoop]
  | cons b rest ih =>
    cases hp : routeProcessBlock env b with
    | none =>
      simp [routeLoop, hp, ih, List.countP_cons, List.filterMap_cons, List.filter_cons]
    | some e =>
      simp [routeLoop, hp, ih, List.countP_cons, List.filterMap_cons, List.filter_cons]

theorem processBlock_success_iff (env : SweepEnv) (b : StudyBlock) :
    (processBlock env b).isNone = true ↔
      ∃ a, env.resolve b.userId = ResolveResult.found a ∧
        env.sendEmail a = true ∧ env.mark b.blockId = true := by
  cases hr : env.resolve b.userId with
  | thrown m => simp [processBlock, hr]
  | sbError m => simp [processBlock, hr]
  | noEmail => simp [processBlock, hr]
  | found addr =>
    by_cases hs : env.sendEmail addr
    · by_cases hm : env.mark b.blockId
      · simp [processBlock, hr, hs, hm]
      · simp [processBlock, hr, hs, hm]
    · simp [processBlock, hr, hs]

theorem routeProcessBlock_success_iff (env : SweepEnv) (b : StudyBlock) :
    (routeProcessBlock env b).isNone = true ↔
      ∃ a, env.resolve b.userId = ResolveResult.found a ∧
        env.sendEmail a = true ∧ env.mark b.blockId = true := by
  cases hr : env.resolve b.userId with
  | thrown m => simp [routeProcessBlock, hr]
  | sbError m => simp [routeProcessBlock, hr]
  | noEmail => simp [routeProcessBlock, hr]
  | found addr =>
    by_cases hs : env.sendEmail addr
    · by_cases hm : env.mark b.blockId
      · simp [routeProcessBlock, hr, hs, hm]
      · simp [routeProcessBlock, hr, hs, hm]
    · simp [routeProcessBlock, hr, hs]

/-- C5: for every sweep, `blocksFound` is the number of selected blocks,
`remindersSent` counts exactly the blocks for which contact resolution,
email delivery and the subsequent mark all succeeded (a block whose email
was sent but whose mark failed yields an error entry, not a sent count),
and `errors` are collected in encounter order — for both the internal
scheduler loop and the HTTP route loop. -/
theorem sweepAggregation :
    (∀ (env : SweepEnv) (bs : List StudyBlock),
      sweepLoop env bs = (bs.countP (fun b => (processBlock env b).isNone),
        bs.filterMap (processBlock env))) ∧
    (∀ (env : SweepEnv) (b : StudyBlock),
      (processBlock env b).isNone = true ↔
        ∃ a, env.resolve b.userId = ResolveResult.found a ∧
          env.sendEmail a = true ∧ env.mark b.blockId = true) ∧
    (∀ (env : SweepEnv) (b : StudyBlock),
      (routeProcessBlock env b).isNone = true ↔
        ∃ a, env.resolve b.userId = ResolveResult.found a ∧
          env.sendEmail a = true ∧ env.mark b.blockId = true) ∧
    (∀ (selFail : Bool) (nowMs : Int) (store : Store) (env : SweepEnv),
      checkReminders selFail nowMs store env =
        Except.ok
          { blocksFound := (getUpcomingBlocks selFail nowMs 10 store).length,
            remindersSent := (getUpcomingBlocks selFail nowMs 10 store).countP
              (fun b => (processBlock env b).isNone),
            errors := (getUpcomingBlocks selFail nowMs 10 store).filterMap
              (processBlock env) }) ∧
    (∀ (env : SweepEnv) (bs : List StudyBlock),
      routeLoop env bs = (bs.countP (fun b => (routeProcessBlock env b).isNone),
        bs.filterMap (routeProcessBlock env),
        (bs.filter (fun b => (routeProcessBlock env b).isNone)).map
          (fun b => b.blockId))) := by
  refine ⟨sweepLoop_closed, processBlock_success_iff, routeProcessBlock_success_iff,
    ?_, routeLoop_closed⟩
  intro selFail nowMs store env
  simp [checkReminders, sweepLoop_closed]

theorem sweepLoop_append (env : SweepEnv) :
    ∀ xs ys : List StudyBlock, sweepLoop env (xs ++ ys) =
      ((sweepLoop env xs).1 + (sweepLoop env ys).1,
       (sweepLoop env xs).2 ++ (sweepLoop env ys).2) := by
  intro xs ys
  induction xs with
  | nil => simp [sweepLoop]
  | cons b rest ih =>
    cases hp : processBlock env b with
    | none =>
      simp only [List.cons_append, sweepLoop, hp, List.append_eq]
      rw [ih]
      simp [Nat.add_right_comm]
    | some e =>
      simp [sweepLoop, hp, ih]

/-- C4: a failure in the processing of one block records exactly one error entry
for that block, in place, and the remaining blocks are still processed; in
the three-block scenario where contact resolution fails for the second
block, the sweep yields `remindersSent = 2` and exactly one error. -/
theorem failureIsolation :
    (∀ (env : SweepEnv) (pre post : List StudyBlock) (b : StudyBlock) (e : String),
      processBlock env b = some e →
        sweepLoop env (pre ++ b :: post) =
          ((sweepLoop env pre).1 + (sweepLoop env post).1,
           (sweepLoop env pre).2 ++ e :: (sweepLoop env post).2)) ∧
    sweepLoop env3 [blk1, blk2, blk3] =
      (2, ["User not found or no email for block B2"]) := by
  constructor
  · intro env pre post b e he
    rw [sweepLoop_append]
    simp [sweepLoop, he]
  · decide

theorem failureIsolation_witness :
    processBlock env3 blk2 = some "User not found or no email for block B2" ∧
    sweepLoop env3 ([blk1] ++ blk2 :: [blk3]) =
      ((sweepLoop env3 [blk1]).1 + (sweepLoop env3 [blk3]).1,
       (sweepLoop env3 [blk1]).2 ++ "User not found or no email for block B2" ::
         (sweepLoop env3 [blk3]).2) :=
  ⟨by decide,
   failureIsolation.1 env3 [blk1] [blk3] blk2
     "User not found or no email for block B2" (by decide)⟩

theorem updateOneMark_marks (bid : String) :
    ∀ store : Store, store.countP (fun b => b.blockId == bid) ≤ 1 →
      (updateOneMark store bid).1 = true →
      MarkedInv bid (updateOneMark store bid).2 := by
  intro store
  induction store with
  | nil => intro _ h; simp [updateOneMark] at h
  | cons a rest ih =>
    intro hcount htrue
    by_cases h : a.blockId == bid
    · cases hr : a.reminderSent
      · have hres : (updateOneMark (a :: rest) bid).2 =
            { a with reminderSent := true } :: rest := by
          simp [updateOneMark, h, hr]
        rw [hres]
        intro b hb hbid
        rcases List.mem_cons.mp hb with rfl | hb
        · rfl
        · exfalso
          have hcnt : rest.countP (fun b => b.blockId == bid) = 0 := by
            rw [List.countP_cons] at hcount
            simp only [h, if_true] at hcount
            omega
          have hnone := List.countP_eq_zero.mp hcnt b hb
          simp [hbid] at hnone
      · simp [updateOneMark, h, hr] at htrue
    · have hres2 : (updateOneMark (a :: rest) bid).2 =
          a :: (updateOneMark rest bid).2 := by
        simp [updateOneMark, h]
      have hfst : (updateOneMark (a :: rest) bid).1 = (updateOneMark rest bid).1 := by
        simp [updateOneMark, h]
      rw [hres2]
      have hcnt : rest.countP (fun b => b.blockId == bid) ≤ 1 := by
        rw [List.countP_cons] at hcount
        omega
      have hmi := ih hcnt (by rw [hfst] at htrue; exact htrue)
      intro b hb hbid
      rcases List.mem_cons.mp hb with rfl | hb
      · simp [hbid] at h
      · exact hmi b hb hbid

theorem mem_updateOneMark (bid : String) :
    ∀ (store : Store) (b : StudyBlock), b ∈ (updateOneMark store bid).2 →
      b ∈ store ∨ ∃ c ∈ store, b = { c with reminderSent := true } := by
  intro store
  induction store with
  | nil => intro b hb; simp [updateOneMark] at hb
  | cons a rest ih =>
    intro b hb
    by_cases h : a.blockId == bid
    · cases hr : a.reminderSent
      · rw [show (updateOneMark (a :: rest) bid).2 =
            { a with reminderSent := true } :: rest from by simp [updateOneMark, h, hr]] at hb
        rcases List.mem_cons.mp hb with rfl | hb
        · exact Or.inr ⟨a, List.mem_cons_self a rest, rfl⟩
        · exact Or.inl (List.mem_cons_of_mem a hb)
      · rw [show (updateOneMark (a :: rest) bid).2 = a :: rest from by
            simp [updateOneMark, h, hr]] at hb
        exact Or.inl hb
    · rw [show (updateOneMark (a :: rest) bid).2 =
          a :: (updateOneMark rest bid).2 from by simp [updateOneMark, h]] at hb
      rcases List.mem_cons.mp hb with rfl | hb
      · exact Or.inl (List.mem_cons_self _ _)
      · rcases ih b hb with hin | ⟨c, hc, rfl⟩
        · exact Or.inl (List.mem_cons_of_mem a hin)
        · exact Or.inr ⟨c, List.mem_cons_of_mem a hc, rfl⟩

theorem mem_deleteOneBlock (bid uid : String) :
    ∀ (store : Store) (b : StudyBlock),
      b ∈ (deleteOneBlock store bid uid).2 → b ∈ store := by
  intro store
  induction store with
  | nil => intro b hb; simp [deleteOneBlock] at hb
  | cons a rest ih =>
    intro b hb
    by_cases h : a.blockId == bid && a.userId == uid
    · rw [show (deleteOneBlock (a :: rest) bid uid).2 = rest from by
          simp [deleteOneBlock, h]] at hb
      exact List.mem_cons_of_mem a hb
    · rw [show (deleteOneBlock (a :: rest) bid uid).2 =
          a :: (deleteOneBlock rest bid uid).2 from by simp [deleteOneBlock, h]] at hb
      rcases List.mem_cons.mp hb with rfl | hb
      · exact List.mem_cons_self _ _
      · exact List.mem_cons_of_mem a (ih b hb)

theorem markedInv_apply (id : String) (op : StoreOp) (s : Store)
    (hInv : MarkedInv id s) (hAvoid : ¬ op.createsId id) :
    MarkedInv id (op.apply s) := by
  cases op with
  | create df d g n =>
    cases df
    · intro b hb hbid
      have hb' : b ∈ s ++ [createdBlock d g n] := by
        simpa [StoreOp.apply, createStudyBlock, createdBlock] using hb
      rcases List.mem_append.mp hb' with hin | hnew
      · exact hInv b hin hbid
      · exfalso
        have hbeq : b = createdBlock d g n := by simpa using hnew
        have hbg : b.blockId = g := by rw [hbeq]; rfl
        exact hAvoid (show g = id by rw [← hbg]; exact hbid)
    · simpa [StoreOp.apply, createStudyBlock] using hInv
  | delete df bid uid =>
    cases df
    · intro b hb hbid
      exact hInv b
        (mem_deleteOneBlock bid uid s b (by simpa [StoreOp.apply, deleteStudyBlock] using hb))
        hbid
    · simpa [StoreOp.apply, deleteStudyBlock] using hInv
  | mark df bid =>
    cases df
    · intro b hb hbid
      rcases mem_updateOneMark bid s b
          (by simpa [StoreOp.apply, markReminderSent] using hb) with hin | ⟨c, hc, rfl⟩
      · exact hInv b hin hbid
      · rfl
    · simpa [StoreOp.apply, markReminderSent] using hInv

theorem markedInv_applyOps (id : String) :
    ∀ (ops : List StoreOp) (s : Store), MarkedInv id s →
      (∀ op ∈ ops, ¬ op.createsId id) → MarkedInv id (applyOps ops s) := by
  intro ops
  induction ops with
  | nil => intro s h _; exact h
  | cons op rest ih =>
    intro s h havoid
    have h1 : MarkedInv id (op.apply s) :=
      markedInv_apply id op s h (havoid op (List.mem_cons_self _ _))
    have h2 := ih (op.apply s) h1 (fun o ho => havoid o (List.mem_cons_of_mem _ ho))
    simpa [applyOps] using h2

theorem getUpcoming_no_marked (id : String) (s : Store) (h : MarkedInv id s) :
    ∀ (df : Bool) (nowMs L : Int) (b : StudyBlock),
      b ∈ getUpcomingBlocks df nowMs L s → b.blockId ≠ id := by
  intro df nowMs L b hb hbid
  cases df
  · have hmem := List.mem_filter.mp (by simpa [getUpcomingBlocks] using hb)
    have hq := hmem.2
    have hsent := h b hmem.1 hbid
    simp [upcomingQuery, hsent] at hq
  · simp [getUpcomingBlocks] at hb

/-- C1: once `markReminderSent` has successfully applied to a block (with
`blockId` unique in the store, as the data model guarantees), every block
carrying that id stays `reminderSent = true` under any further sequence of
service calls (marks, deletes, and creates — which always generate a fresh
id), and no later `getUpcomingBlocks` selection, at any time and lookahead,
returns a block with that id. -/
theorem atMostOnceMarking :
    ∀ (store : Store) (id : String) (ops : List StoreOp),
      store.countP (fun b => b.blockId == id) ≤ 1 →
      (markReminderSent false store id).1 = true →
      (∀ op ∈ ops, ¬ op.createsId id) →
      MarkedInv id (applyOps ops (markReminderSent false store id).2) ∧
      ∀ (df : Bool) (nowMs L : Int) (b : StudyBlock),
        b ∈ getUpcomingBlocks df nowMs L
          (applyOps ops (markReminderSent false store id).2) →
        b.blockId ≠ id := by
  intro store id ops hcount htrue havoid
  have h0 : MarkedInv id (markReminderSent false store id).2 := by
    have hm := updateOneMark_marks id store hcount (by simpa [markReminderSent] using htrue)
    simpa [markReminderSent] using hm
  have h1 := markedInv_applyOps id ops _ h0 havoid
  exact ⟨h1, getUpcoming_no_marked id _ h1⟩

theorem atMostOnceMarking_witness :
    store0.countP (fun b => b.blockId == "x") ≤ 1 ∧
    (markReminderSent false store0 "x").1 = true ∧
    MarkedInv "x" (applyOps ops0 (markReminderSent false store0 "x").2) :=
  ⟨by decide, by decide,
   (atMostOnceMarking store0 "x" ops0 (by decide) (by decide) (by decide)).1⟩

/-- C3 counterexample: with a block squarely inside the window, a failing
selection query does not surface a hard failure — the route answers the
200 "No upcoming blocks to process" response and the scheduler sweep
produces the empty result, while the same store with a working selection
does process the block (so the failure was silently absorbed, not
propagated). -/
theorem selectionFailure_counterexample :
    remindersPOST true 0 [blkWin] envOk = RouteResponse.noUpcoming 0 0 ∧
    checkReminders true 0 [blkWin] envOk =
      Except.ok { blocksFound := 0, remindersSent := 0, errors := [] } ∧
    remindersPOST false 0 [blkWin] envOk =
      RouteResponse.processed 1 1 ["W1"] [] := by
  refine ⟨rfl, rfl, rfl⟩

/-- C3 (amended): per-block failures never raise past the sweep boundary,
and a failing selection query does not either: `getUpcomingBlocks` catches
the error and returns `[]`, so the sweep always yields a result — on
selection failure the trivial one (`blocksFound = 0`, no errors), reported
to the HTTP caller as the 200 "No upcoming blocks to process" response,
never as a server error. -/
theorem selectionFailure_semantics :
    ∀ (selFail : Bool) (nowMs : Int) (store : Store) (env : SweepEnv),
      (∃ r, checkReminders selFail nowMs store env = Except.ok r) ∧
      (∀ d, remindersPOST selFail nowMs store env ≠ RouteResponse.serverError d) ∧
      (selFail = true →
        checkReminders selFail nowMs store env =
          Except.ok { blocksFound := 0, remindersSent := 0, errors := [] } ∧
        remindersPOST selFail nowMs store env = RouteResponse.noUpcoming 0 0) := by
  intro selFail nowMs store env
  refine ⟨⟨_, rfl⟩, ?_, ?_⟩
  · intro d
    unfold remindersPOST
    cases hemp : (getUpcomingBlocks selFail nowMs 10 store).isEmpty
    · simp [hemp]
    · simp [hemp]
  · intro h
    subst h
    exact ⟨rfl, rfl⟩

theorem selectionFailure_semantics_witness :
    checkReminders true 0 [blkWin] envOk =
      Except.ok { blocksFound := 0, remindersSent := 0, errors := [] } ∧
    remindersPOST true 0 [blkWin] envOk = RouteResponse.noUpcoming 0 0 :=
  (selectionFailure_semantics true 0 [blkWin] envOk).2.2 rfl

/-- C9 counterexample: the sweep takes two `new Date()` samples, not one,
and the selection window is anchored at the second sample: under the
fixed-now selection of the spec (lower bound = the sweep-start sample) the
block is selected, but the sweep of the code finds no block. -/
theorem fixedNow_counterexample :
    specFixedNowSelection clockLate [blkEarly] = [blkEarly] ∧
    (checkRemindersClock clockLate [blkEarly] envOk).1.blocksFound = 0 ∧
    (checkRemindersClock clockLate [blkEarly] envOk).2 = 2 := by
  refine ⟨rfl, rfl, rfl⟩

/-- C9 (amended): a sweep samples the clock twice — once at sweep start
(used only for logging) and once inside `getUpcomingBlocks` — and the
selection window is anchored at the second sample, both of its bounds
(lower `clock 1`, upper `clock 1 + 10 minutes`) derived from that single
selection-time sample. -/
theorem fixedNow_amended :
    ∀ (clock : Nat → Int) (store : Store) (env : SweepEnv),
      (checkRemindersClock clock store env).2 = 2 ∧
      (checkRemindersClock clock store env).1 =
        { blocksFound := (store.filter (upcomingQuery (clock 1) 10)).length,
          remindersSent := (sweepLoop env (store.filter (upcomingQuery (clock 1) 10))).1,
          errors := (sweepLoop env (store.filter (upcomingQuery (clock 1) 10))).2 } ∧
      getUpcomingBlocksClock clock 1 10 store =
        (store.filter (upcomingQuery (clock 1) 10), 2) := by
  intro clock store env
  exact ⟨rfl, rfl, rfl⟩

/-- C8: the rendered duration is `endTime − startTime` in whole minutes,
rounded to the nearest (ties toward +∞, JavaScript `Math.round`); on exact
whole-minute intervals it is the exact minute count, and for
`2024-01-01T10:00:00Z` to `2024-01-01T10:45:00Z` (epoch milliseconds
below) it is 45. -/
theorem reminderEmailDuration_correct :
    (∀ s e : Int, reminderEmailDuration s e = round (((e - s : Int) : ℚ) / 60000)) ∧
    (∀ s m : Int, reminderEmailDuration s (s + m * 60000) = m) ∧
    reminderEmailDuration 1704103200000 1704105900000 = 45 := by
  have hgen : ∀ s e : Int,
      reminderEmailDuration s e = round (((e - s : Int) : ℚ) / 60000) := by
    intro s e
    rw [reminderEmailDuration, jsMathRound, round_eq]
    norm_num
  refine ⟨hgen, ?_, ?_⟩
  · intro s m
    rw [hgen]
    have hq : ((s + m * 60000 - s : Int) : ℚ) / 60000 = (m : ℚ) := by
      push_cast
      field_simp
    rw [hq, round_intCast]
  · rw [hgen]
    have hq : ((1704105900000 - 1704103200000 : Int) : ℚ) / 60000 = ((45 : Int) : ℚ) := by
      norm_num
    rw [hq, round_intCast]
